import Mathlib

/-!
Shallow embedding of the lightmix repository source
(src/docs/homepage/src/main.rs, a dioxus counter application).

The Rust source declares a single-variant `Route` enum routed at "/",
and a `Home` component holding `let mut count = use_signal(|| 0);`
whose inferred Rust type is `i32`.  The two buttons run `count += 1`
and `count -= 1`, ignoring the mouse-event payload.  We model the
counter value as an `Int` constrained to i32 two's-complement
semantics: in a Rust release build `+=`/`-=` on `i32` wrap modulo
2^32, so increment and decrement are modelled through `wrapI32`
(a debug build would instead panic at the same boundary inputs;
either way the result is never the unbounded mathematical sum).
-/

/-- Payload of a mouse click event; the Rust handlers bind it as `|_|`
and never read it.  The fields stand for arbitrary event data. -/
structure MouseData where
  clientX : Int
  clientY : Int
deriving DecidableEq

/-- The two UI events the Home component handles: a click on the
"Up high!" button or a click on the "Down low!" button, each
carrying its event payload. -/
inductive Event where
  | upClick (data : MouseData)
  | downClick (data : MouseData)
deriving DecidableEq

/-- Two's-complement wrap of an integer into the i32 range
[-2147483648, 2147483648), the semantics of Rust `i32` arithmetic
in release builds. -/
def wrapI32 (n : Int) : Int :=
  (n + 2147483648) % 4294967296 - 2147483648

namespace Home

/-- Embeds `use_signal(|| 0)`: the initial value of the counter signal. -/
def initialCount : Int := 0

/-- Embeds the two click handlers of the Home component:
`onclick: move |_| count += 1` on "Up high!" and
`onclick: move |_| count -= 1` on "Down low!".  The payload is
bound but never inspected, exactly as the Rust closures bind `_`. -/
def handleEvent (count : Int) : Event → Int
  | Event.upClick _ => wrapI32 (count + 1)
  | Event.downClick _ => wrapI32 (count - 1)

/-- Delivers a sequence of click events to the component, one at a
time, threading the counter state. -/
def applyClicks (count : Int) (evs : List Event) : Int :=
  evs.foldl handleEvent count

end Home

/-- Markup node: either a text node or an element with a tag, a list
of attributes and child nodes. -/
inductive Node where
  | text (s : String)
  | elem (tag : String) (attrs : List (String × String)) (children : List Node)

/-- Embeds the `rsx!` body of the Home component: a heading with the
interpolated text `"High-Five counter: {count}"` and the two buttons
with literal labels. -/
def renderHome (count : Int) : List Node :=
  [ Node.elem "h1" [] [Node.text ("High-Five counter: " ++ toString count)],
    Node.elem "button" [] [Node.text "Up high!"],
    Node.elem "button" [] [Node.text "Down low!"] ]

/-- The text of the first h1 heading among the given top-level nodes. -/
def headingText (nodes : List Node) : Option String :=
  (nodes.filterMap fun n =>
    match n with
    | Node.elem "h1" _ [Node.text s] => some s
    | _ => none).head?

/-- The labels of all top-level button elements, in order. -/
def buttonLabels (nodes : List Node) : List String :=
  nodes.filterMap fun n =>
    match n with
    | Node.elem "button" _ [Node.text s] => some s
    | _ => none

/-- Embeds the `Route` enum of the source: a single variant `Home`
routed at the literal path "/". -/
inductive Route where
  | Home : Route
deriving DecidableEq

/-- The path each route variant is bound to by its `route` attribute. -/
def Route.path : Route → String
  | Route.Home => "/"

/-- The table of declared routes, as (path, route) pairs: the source
declares exactly one, `#[route("/")]` on `Home`. -/
def routeTable : List (String × Route) :=
  [("/", Route.Home)]

/-- Route resolution over the declared route table: the path of a
navigation request is matched for exact equality against each
declared literal path (the single declared route has no dynamic
segments); an unmatched path resolves to `none`, it is not an error. -/
def resolveRoute (p : String) : Option Route :=
  (routeTable.find? fun entry => entry.1 == p).map Prod.snd

/-- Serializes one attribute as it appears in markup. -/
def attrString (a : String × String) : String :=
  " " ++ a.1 ++ "=\"" ++ a.2 ++ "\""

/-- Serializes a node tree to its markup string. -/
def Node.render : Node → String
  | Node.text s => s
  | Node.elem tag attrs children =>
      "<" ++ tag ++ String.join (attrs.map attrString) ++ ">"
        ++ String.join (children.attach.map fun c => Node.render c.1)
        ++ "</" ++ tag ++ ">"
termination_by n => sizeOf n
decreasing_by
  have h := List.sizeOf_lt_of_mem c.2
  simp only [Node.elem.sizeOf_spec]
  omega

/-- Serializes a list of top-level nodes to its markup string. -/
def renderMarkup (nodes : List Node) : String :=
  String.join (nodes.map Node.render)

/-- Context in which a component instance is mounted; `mountIndex`
distinguishes successive mounts of the same page. -/
structure MountCtx where
  mountIndex : Nat
deriving DecidableEq

/-- Modelled from the spec: the source of the site-shell application
(App 2) is not among the provided source files, only the counter
application is.  Per the spec the header page of App 2 renders, with
no reactive state and no event handlers, a static header containing
one h1 with a single hyperlink labeled "lightmix" whose href is "/";
the render reads nothing from its mount context. -/
def Header (_ctx : MountCtx) : List Node :=
  [ Node.elem "header" []
      [ Node.elem "h1" []
          [ Node.elem "a" [("href", "/")] [Node.text "lightmix"] ] ] ]

/-! ### Shared lemmas about i32 wrapping and click sequences -/

theorem wrapI32_add_left (a b : Int) :
    wrapI32 (wrapI32 a + b) = wrapI32 (a + b) := by
  unfold wrapI32
  omega

theorem wrapI32_eq_self (n : Int)
    (h1 : -2147483648 ≤ n) (h2 : n < 2147483648) : wrapI32 n = n := by
  unfold wrapI32
  omega

theorem wrapI32_mem_range (n : Int) :
    -2147483648 ≤ wrapI32 n ∧ wrapI32 n < 2147483648 := by
  unfold wrapI32
  constructor <;> omega

theorem handleEvent_up (c : Int) (e : MouseData) :
    Home.handleEvent c (Event.upClick e) = wrapI32 (c + 1) := rfl

theorem handleEvent_down (c : Int) (e : MouseData) :
    Home.handleEvent c (Event.downClick e) = wrapI32 (c - 1) := rfl

theorem applyClicks_up_run (evs : List MouseData) (a : Int) :
    Home.applyClicks (wrapI32 a) (evs.map Event.upClick)
      = wrapI32 (a + evs.length) := by
  induction evs generalizing a with
  | nil => simp [Home.applyClicks]
  | cons e rest ih =>
      simp only [List.map_cons, Home.applyClicks, List.foldl_cons,
        handleEvent_up, wrapI32_add_left] at ih ⊢
      rw [ih (a + 1)]
      congr 1
      simp only [List.length_cons]
      push_cast
      ring

theorem applyClicks_down_run (evs : List MouseData) (a : Int) :
    Home.applyClicks (wrapI32 a) (evs.map Event.downClick)
      = wrapI32 (a - evs.length) := by
  induction evs generalizing a with
  | nil => simp [Home.applyClicks]
  | cons e rest ih =>
      simp only [List.map_cons, Home.applyClicks, List.foldl_cons,
        handleEvent_down, wrapI32_add_left] at ih ⊢
      rw [show wrapI32 a - 1 = wrapI32 a + (-1) from by ring, wrapI32_add_left,
        show a + -1 = a - 1 from by ring]
      rw [ih (a - 1)]
      congr 1
      simp only [List.length_cons]
      push_cast
      ring

theorem applyClicks_up_then_down (ups downs : List MouseData) :
    Home.applyClicks Home.initialCount
        (ups.map Event.upClick ++ downs.map Event.downClick)
      = wrapI32 ((ups.length : Int) - downs.length) := by
  have h0 : Home.initialCount = wrapI32 0 := by decide
  rw [h0]
  unfold Home.applyClicks
  rw [List.foldl_append]
  have hu := applyClicks_up_run ups 0
  unfold Home.applyClicks at hu
  rw [hu]
  have hd := applyClicks_down_run downs ((0 : Int) + ups.length)
  unfold Home.applyClicks at hd
  rw [hd]
  congr 1
  ring

/-! ### Claim theorems -/

/-- C1 (amended): starting from a freshly mounted Home component, N
"Up high!" clicks followed by M "Down low!" clicks leave the counter at
N - M, and the heading displays that value, provided N - M lies in the
i32 range; in general the final counter is the two's-complement wrap of
N - M. -/
theorem counter_after_up_then_down (ups downs : List MouseData)
    (hlo : -2147483648 ≤ (ups.length : Int) - downs.length)
    (hhi : (ups.length : Int) - downs.length < 2147483648) :
    Home.applyClicks Home.initialCount
        (ups.map Event.upClick ++ downs.map Event.downClick)
      = (ups.length : Int) - downs.length ∧
    headingText (renderHome (Home.applyClicks Home.initialCount
        (ups.map Event.upClick ++ downs.map Event.downClick)))
      = some ("High-Five counter: "
          ++ toString ((ups.length : Int) - downs.length)) := by
  have h := applyClicks_up_then_down ups downs
  rw [h, wrapI32_eq_self _ hlo hhi]
  exact ⟨rfl, rfl⟩

/-- Witness for C1 at the concrete scenario of two "Up high!" clicks and one
"Down low!" click: the counter ends at 1 and the heading reads
"High-Five counter: 1". -/
theorem counter_after_up_then_down_witness :
    Home.applyClicks Home.initialCount
        (([⟨1, 2⟩, ⟨3, 4⟩] : List MouseData).map Event.upClick
          ++ ([⟨5, 6⟩] : List MouseData).map Event.downClick) = 1 ∧
    headingText (renderHome (Home.applyClicks Home.initialCount
        (([⟨1, 2⟩, ⟨3, 4⟩] : List MouseData).map Event.upClick
          ++ ([⟨5, 6⟩] : List MouseData).map Event.downClick)))
      = some "High-Five counter: 1" := by
  have h := counter_after_up_then_down [⟨1, 2⟩, ⟨3, 4⟩] [⟨5, 6⟩]
    (by decide) (by decide)
  refine ⟨?_, ?_⟩
  · rw [h.1]; decide
  · rw [h.2]; decide

/-- C1 counterexample: 2147483648 "Up high!" clicks and no "Down low!" clicks
from a fresh mount leave the counter at -2147483648, not at the claimed
difference 2147483648 - 0. -/
theorem counter_after_clicks_overflow_counterexample :
    Home.applyClicks Home.initialCount
        ((List.replicate 2147483648 (⟨0, 0⟩ : MouseData)).map Event.upClick
          ++ ([] : List MouseData).map Event.downClick)
      = -2147483648 ∧
    ((2147483648 : Int) - 0 ≠ -2147483648) := by
  constructor
  · have h := applyClicks_up_then_down (List.replicate 2147483648 ⟨0, 0⟩) []
    rw [h]
    simp only [List.length_replicate, List.length_nil]
    decide
  · decide

/-- C2: on mount the counter signal initializes to exactly 0, and the initial
render (before any click) displays counter value 0 in the heading. -/
theorem initial_counter_is_zero :
    Home.initialCount = 0 ∧
    headingText (renderHome Home.initialCount) = some "High-Five counter: 0" :=
  ⟨rfl, by decide⟩

/-- C3 (amended): for every i32 counter value c, an "Up high!" click sets the
counter to c + 1 when c < 2147483647 and a "Down low!" click sets it to
c - 1 when -2147483648 < c (at the two boundary values the i32 wraps
instead), and every event the component handles mutates the counter by one
of these two operations only. -/
theorem click_handlers_amended (c : Int) (e : MouseData)
    (hlo : -2147483648 ≤ c) (hhi : c < 2147483648) :
    (c < 2147483647 → Home.handleEvent c (Event.upClick e) = c + 1) ∧
    (-2147483648 < c → Home.handleEvent c (Event.downClick e) = c - 1) ∧
    (∀ ev : Event, Home.handleEvent c ev = wrapI32 (c + 1) ∨
      Home.handleEvent c ev = wrapI32 (c - 1)) := by
  refine ⟨fun h => ?_, fun h => ?_, fun ev => ?_⟩
  · rw [handleEvent_up]
    exact wrapI32_eq_self _ (by omega) (by omega)
  · rw [handleEvent_down]
    exact wrapI32_eq_self _ (by omega) (by omega)
  · cases ev with
    | upClick d => exact Or.inl rfl
    | downClick d => exact Or.inr rfl

/-- Witness for C3 at counter value 10: an "Up high!" click yields 10 + 1 and
a "Down low!" click yields 10 - 1. -/
theorem click_handlers_amended_witness :
    Home.handleEvent 10 (Event.upClick ⟨7, 8⟩) = 10 + 1 ∧
    Home.handleEvent 10 (Event.downClick ⟨7, 8⟩) = 10 - 1 := by
  have h := click_handlers_amended 10 ⟨7, 8⟩ (by decide) (by decide)
  exact ⟨h.1 (by decide), h.2.1 (by decide)⟩

/-- C3 counterexample: at counter value 2147483647 (the i32 maximum) one
"Up high!" click does not set the counter to 2147483647 + 1; it wraps to
-2147483648. -/
theorem up_click_at_max_counterexample :
    Home.handleEvent 2147483647 (Event.upClick ⟨0, 0⟩) = -2147483648 ∧
    (-2147483648 : Int) ≠ 2147483647 + 1 := by
  decide

/-- C4 (amended): the handlers perform no bounds check and the counter can go
negative (one "Down low!" click from 0 yields -1), but the counter is a
32-bit signed integer: every handler result lies in the i32 range, and an
"Up high!" click at 2147483647 wraps to -2147483648 instead of growing
without limit. -/
theorem counter_unchecked_but_wraps (e : MouseData) :
    Home.handleEvent 0 (Event.downClick e) = -1 ∧
    (∀ (c : Int) (ev : Event),
      -2147483648 ≤ Home.handleEvent c ev ∧
        Home.handleEvent c ev < 2147483648) ∧
    Home.handleEvent 2147483647 (Event.upClick e) = -2147483648 := by
  refine ⟨?_, fun c ev => ?_, ?_⟩
  · rw [handleEvent_down]
    decide
  · cases ev with
    | upClick d =>
        rw [handleEvent_up]
        exact wrapI32_mem_range _
    | downClick d =>
        rw [handleEvent_down]
        exact wrapI32_mem_range _
  · rw [handleEvent_up]
    decide

/-- C4 counterexample: an "Up high!" click at counter value 2147483647 yields
a strictly smaller counter value, refuting that repeated increments let the
counter grow without limit. -/
theorem counter_growth_bounded_counterexample :
    Home.handleEvent 2147483647 (Event.upClick ⟨1, 1⟩) < 2147483647 := by
  decide

/-- C5: Route is an enumeration with exactly one variant, Home, bound to the
literal path "/", and the declared route table consists of exactly that one
binding. -/
theorem route_single_variant :
    (∀ r : Route, r = Route.Home) ∧
    Route.path Route.Home = "/" ∧
    routeTable = [(Route.path Route.Home, Route.Home)] := by
  refine ⟨fun r => ?_, rfl, rfl⟩
  cases r
  rfl

/-- C6: route resolution maps the exact path "/" (and only that path) to the
Home component, and every other path resolves to no route; resolution is a
total function, so an unmatched path cannot crash it. -/
theorem route_resolution (p : String) :
    (resolveRoute p = some Route.Home ↔ p = "/") ∧
    (p ≠ "/" → resolveRoute p = none) := by
  by_cases h : p = "/"
  · simp [resolveRoute, routeTable, List.find?, h]
  · have hb : (("/" : String) == p) = false :=
      beq_eq_false_iff_ne.mpr (Ne.symm h)
    simp [resolveRoute, routeTable, List.find?, hb, h]

/-- Witness for C6: the path "/" resolves to Home and the path "/about"
resolves to no route. -/
theorem route_resolution_witness :
    resolveRoute "/" = some Route.Home ∧ resolveRoute "/about" = none :=
  ⟨(route_resolution "/").1.mpr rfl, (route_resolution "/about").2 (by decide)⟩

/-- C7: for every counter value the Home component renders a heading whose
text is "High-Five counter: " followed by the decimal counter value, and
exactly two buttons, labeled "Up high!" and "Down low!". -/
theorem home_render_shape (c : Int) :
    headingText (renderHome c) = some ("High-Five counter: " ++ toString c) ∧
    buttonLabels (renderHome c) = ["Up high!", "Down low!"] ∧
    (renderHome c).length = 3 :=
  ⟨rfl, rfl, rfl⟩

/-- C8: every mount of the App 2 header page produces byte-identical markup,
namely a header containing an h1 with one hyperlink labeled "lightmix"
whose href is "/". -/
theorem header_render_idempotent (ctx1 ctx2 : MountCtx) :
    renderMarkup (Header ctx1) = renderMarkup (Header ctx2) ∧
    renderMarkup (Header ctx1)
      = "<header><h1><a href=\"/\">lightmix</a></h1></header>" := by
  constructor
  · rfl
  · simp [renderMarkup, Header, Node.render, List.attach, List.attachWith,
      List.pmap, attrString, String.join]

/-- C9: from any i32 counter value c, an "Up high!" click followed by a
"Down low!" click returns the counter to c, and so does the reverse order:
the two handlers are mutual inverses on the counter state. -/
theorem up_down_mutual_inverse (c : Int) (e1 e2 : MouseData)
    (hlo : -2147483648 ≤ c) (hhi : c < 2147483648) :
    Home.handleEvent (Home.handleEvent c (Event.upClick e1))
        (Event.downClick e2) = c ∧
    Home.handleEvent (Home.handleEvent c (Event.downClick e1))
        (Event.upClick e2) = c := by
  rw [handleEvent_up, handleEvent_down, handleEvent_down, handleEvent_up]
  unfold wrapI32
  constructor <;> omega

/-- Witness for C9 at counter value 41 with two distinct payloads. -/
theorem up_down_mutual_inverse_witness :
    Home.handleEvent (Home.handleEvent 41 (Event.upClick ⟨1, 2⟩))
        (Event.downClick ⟨3, 4⟩) = 41 ∧
    Home.handleEvent (Home.handleEvent 41 (Event.downClick ⟨1, 2⟩))
        (Event.upClick ⟨3, 4⟩) = 41 :=
  up_down_mutual_inverse 41 ⟨1, 2⟩ ⟨3, 4⟩ (by decide) (by decide)

/-- C10: both click handlers ignore the click event payload: for every
counter value and any two payloads delivered to the same button, the
resulting counter value is identical. -/
theorem handlers_ignore_payload (c : Int) (e1 e2 : MouseData) :
    Home.handleEvent c (Event.upClick e1)
      = Home.handleEvent c (Event.upClick e2) ∧
    Home.handleEvent c (Event.downClick e1)
      = Home.handleEvent c (Event.downClick e2) :=
  ⟨rfl, rfl⟩
